import Mathlib

/-!
Shallow embedding of the AbleStack (CloudStack) Kubernetes cloud-provider
adapter: the file `cloudstack.go` (config loading, client construction,
capability negotiation, zone resolution) and the instances file
(node addresses, instance id/type, existence, metadata).

Remote behaviour (the CloudStack API client) is modelled as an oracle of
lookup functions; each adapter operation additionally returns the list of
remote calls it issued, so that "performs exactly one remote lookup" is a
statement about that trace.
-/

/-! ### The label-sanitizing regex

The source compiles `labelInvalidCharsRegex` as the Go (leftmost-first)
regular expression `([^A-Za-z0-9][^-A-Za-z0-9_.]*)?[^A-Za-z0-9]` and applies
`ReplaceAllString(s, "")`.  We embed the matcher for exactly this pattern:
at a given position the engine first tries the group (one `[^A-Za-z0-9]`
character, then a greedy `[^-A-Za-z0-9_.]*` run with backtracking) followed
by one mandatory `[^A-Za-z0-9]` character, and falls back to the group being
absent. -/

/-- Membership in the regex character class `[A-Za-z0-9]` (ASCII, as in Go). -/
def isLabelAlnum (c : Char) : Bool :=
  ('A' ≤ c && c ≤ 'Z') || ('a' ≤ c && c ≤ 'z') || ('0' ≤ c && c ≤ '9')

/-- Membership in the regex character class `[^-A-Za-z0-9_.]`. -/
def isStarClass (c : Char) : Bool :=
  !(isLabelAlnum c || c == '-' || c == '_' || c == '.')

/-- Matches `[^-A-Za-z0-9_.]* [^A-Za-z0-9]` against a prefix of the input,
preferring the longest star run first (greedy with backtracking, as in Go's
leftmost-first semantics); returns the number of characters consumed. -/
def starTail : List Char → Option Nat
  | [] => none
  | c :: rest =>
    if isStarClass c then
      match starTail rest with
      | some n => some (n + 1)
      | none => if isLabelAlnum c then none else some 1
    else
      if isLabelAlnum c then none else some 1

/-- Length of the leftmost-first match of
`([^A-Za-z0-9][^-A-Za-z0-9_.]*)?[^A-Za-z0-9]` at the head of the input:
the optional group is tried first (its lead character, then `starTail` for
the star run and the final mandatory character); if that fails the group is
dropped and the mandatory `[^A-Za-z0-9]` character alone is matched. -/
def matchLen : List Char → Option Nat
  | [] => none
  | c :: rest =>
    if isLabelAlnum c then
      none
    else
      match starTail rest with
      | some n => some (n + 1)
      | none => some 1

/-- Fuel-indexed scanner for `ReplaceAllString(s, "")`: repeatedly find the
leftmost match, delete it, and continue after it.  Fuel bounds the number of
steps; `l.length` fuel always suffices since every match is non-empty. -/
def replaceAllFuel : Nat → List Char → List Char
  | 0, _ => []
  | _ + 1, [] => []
  | fuel + 1, c :: rest =>
    match matchLen (c :: rest) with
    | some n => replaceAllFuel fuel (rest.drop (n - 1))
    | none => c :: replaceAllFuel fuel rest

/-- Embeds `labelInvalidCharsRegex.ReplaceAllString(s, "")` on a character
list. -/
def replaceAllList (l : List Char) : List Char :=
  replaceAllFuel l.length l

/-- String version of the sanitizer applied to service-offering names. -/
def sanitizeLabel (s : String) : String :=
  ⟨replaceAllList s.data⟩

/-- Every position consumed by `starTail` holds a character outside
`[A-Za-z0-9]`, and at least one and at most `l.length` characters are
consumed. -/
theorem starTail_spec (l : List Char) (n : Nat) (h : starTail l = some n) :
    1 ≤ n ∧ n ≤ l.length ∧ ∀ c ∈ l.take n, isLabelAlnum c = false := by
  induction l generalizing n with
  | nil => simp [starTail] at h
  | cons c rest ih =>
    have hone : isLabelAlnum c = false → n = 1 →
        1 ≤ n ∧ n ≤ (c :: rest).length ∧
        ∀ x ∈ (c :: rest).take n, isLabelAlnum x = false := by
      intro hcna hn
      subst hn
      refine ⟨le_refl 1, by simp, ?_⟩
      intro x hx
      simp [List.take_succ_cons] at hx
      subst hx
      exact hcna
    cases hc : isStarClass c with
    | true =>
      have hcna : isLabelAlnum c = false := by
        cases hal : isLabelAlnum c
        · rfl
        · simp [isStarClass, hal] at hc
      cases hst : starTail rest with
      | some m =>
        obtain ⟨h1, h2, h3⟩ := ih m hst
        have hn : n = m + 1 := by
          simp [starTail, hc, hst] at h
          omega
        subst hn
        refine ⟨by omega, by simp; omega, ?_⟩
        intro x hx
        simp [List.take_succ_cons] at hx
        rcases hx with rfl | hx
        · exact hcna
        · exact h3 x hx
      | none =>
        have hn : n = 1 := by
          simp [starTail, hc, hst, hcna] at h
          omega
        exact hone hcna hn
    | false =>
      cases hna : isLabelAlnum c with
      | true => simp [starTail, hc, hna] at h
      | false =>
        have hn : n = 1 := by
          simp [starTail, hc, hna] at h
          omega
        exact hone hna hn

/-- Every position consumed by a `matchLen` match holds a character outside
`[A-Za-z0-9]`; a match consumes at least one and at most `l.length`
characters. -/
theorem matchLen_spec (l : List Char) (n : Nat) (h : matchLen l = some n) :
    1 ≤ n ∧ n ≤ l.length ∧ ∀ c ∈ l.take n, isLabelAlnum c = false := by
  cases l with
  | nil => simp [matchLen] at h
  | cons c rest =>
    cases hna : isLabelAlnum c with
    | true => simp [matchLen, hna] at h
    | false =>
      cases hst : starTail rest with
      | some m =>
        obtain ⟨h1, h2, h3⟩ := starTail_spec rest m hst
        have hn : n = m + 1 := by
          simp [matchLen, hna, hst] at h
          omega
        subst hn
        refine ⟨by omega, by simp; omega, ?_⟩
        intro x hx
        simp [List.take_succ_cons] at hx
        rcases hx with rfl | hx
        · exact hna
        · exact h3 x hx
      | none =>
        have hn : n = 1 := by
          simp [matchLen, hna, hst] at h
          omega
        subst hn
        refine ⟨le_refl 1, by simp, ?_⟩
        intro x hx
        simp [List.take_succ_cons] at hx
        subst hx
        exact hna

/-- On a head character outside `[A-Za-z0-9]` the pattern always matches. -/
theorem matchLen_isSome_of_not_alnum (c : Char) (rest : List Char)
    (h : isLabelAlnum c = false) : ∃ n, matchLen (c :: rest) = some n := by
  simp only [matchLen, h, if_false]
  cases starTail rest with
  | some m => exact ⟨m + 1, rfl⟩
  | none => exact ⟨1, rfl⟩

/-- With fuel at least the length of the input, the scanner deletes exactly
the characters outside `[A-Za-z0-9]`. -/
theorem replaceAllFuel_eq_filter (fuel : Nat) (l : List Char)
    (hl : l.length ≤ fuel) : replaceAllFuel fuel l = l.filter isLabelAlnum := by
  induction fuel generalizing l with
  | zero =>
    have : l = [] := List.eq_nil_of_length_eq_zero (Nat.le_zero.mp hl)
    subst this
    rfl
  | succ m ih =>
    cases l with
    | nil => rfl
    | cons c rest =>
      by_cases hca : isLabelAlnum c
      · have hm : matchLen (c :: rest) = none := by simp [matchLen, hca]
        have hrest : replaceAllFuel m rest = rest.filter isLabelAlnum := by
          apply ih
          simp only [List.length_cons] at hl
          omega
        simp [replaceAllFuel, hm, List.filter_cons, hca, hrest]
      · simp only [Bool.not_eq_true] at hca
        obtain ⟨n, hm⟩ := matchLen_isSome_of_not_alnum c rest hca
        obtain ⟨h1, h2, h3⟩ := matchLen_spec _ _ hm
        have htail : ∀ x ∈ rest.take (n - 1), isLabelAlnum x = false := by
          intro x hx
          apply h3
          cases n with
          | zero => omega
          | succ k =>
            simp only [Nat.add_sub_cancel] at hx
            simp [List.take_cons, hx]
        have hdrop : replaceAllFuel m (rest.drop (n - 1)) =
            (rest.drop (n - 1)).filter isLabelAlnum := by
          apply ih
          have := List.length_drop (n - 1) rest
          simp only [List.length_cons] at hl
          omega
        have hsplit : rest.filter isLabelAlnum =
            (rest.take (n - 1)).filter isLabelAlnum ++
            (rest.drop (n - 1)).filter isLabelAlnum := by
          rw [← List.filter_append, List.take_append_drop]
        have hnil : (rest.take (n - 1)).filter isLabelAlnum = [] := by
          rw [List.filter_eq_nil_iff]
          intro x hx
          simp [htail x hx]
        simp [replaceAllFuel, hm, List.filter_cons, hca, hsplit, hnil, hdrop]

/-- Characterization of the sanitizer: replacing every match of
`([^A-Za-z0-9][^-A-Za-z0-9_.]*)?[^A-Za-z0-9]` by the empty string deletes
exactly the characters outside `[A-Za-z0-9]` (in particular internal `-`,
`_`, `.` are deleted too, since each alone matches the mandatory final
`[^A-Za-z0-9]` with the group absent). -/
theorem replaceAllList_eq_filter (l : List Char) :
    replaceAllList l = l.filter isLabelAlnum := by
  exact replaceAllFuel_eq_filter l.length l (le_refl _)

/-- Concrete behaviour of the sanitizer on the spec's two examples. -/
theorem sanitizeLabel_examples :
    sanitizeLabel "m1.small!!" = "m1small" ∧
    sanitizeLabel "##gpu-large" = "gpularge" := by
  constructor <;> decide

/-! ### Data model -/

/-- Network-interface record of a remote virtual machine (a `Nic` entry of
the CloudStack API response); only the IP address field is read. -/
structure Nic where
  Ipaddress : String
deriving Repr, DecidableEq

/-- Remote virtual-machine snapshot: the fields of
`cloudstack.VirtualMachine` the adapter reads. -/
structure VirtualMachine where
  Id : String
  Name : String
  Hostname : String
  Publicip : String
  Zonename : String
  Serviceofferingname : String
  Nic : List Nic
deriving Repr, DecidableEq

/-- Outcome of a remote `GetVirtualMachineByName` / `GetVirtualMachineByID`
call as the adapter observes it.  The Go client returns
`(instance, count, err)`; the adapter only distinguishes `err == nil`
(success, the instance is used), `err != nil && count == 0` (no match) and
`err != nil && count != 0` (any other failure, message wrapped). -/
inductive LookupResult where
  | ok (vm : VirtualMachine)
  | err (count : Nat) (msg : String)
deriving Repr, DecidableEq

/-- Trace entry for one remote instance lookup: which endpoint was called,
with which argument, and with which project scope (`none` when no
`WithProject` option was passed). -/
inductive RemoteCall where
  | byName (name : String) (project : Option String)
  | byID (id : String) (project : Option String)
deriving Repr, DecidableEq

/-- Handle to the constructed CloudStack API client
(`cloudstack.CloudStackClient`): the two VirtualMachine-service lookups the
adapter uses, as oracles for the remote side. -/
structure ClientHandle where
  getVirtualMachineByName : String → Option String → LookupResult
  getVirtualMachineByID : String → Option String → LookupResult

/-- Fields of the `Global` section of the provider configuration
(`CSConfig.Global`). -/
structure CSConfigGlobal where
  APIURL : String
  APIKey : String
  SecretKey : String
  SSLNoVerify : Bool
  ProjectID : String
  Zone : String

/-- Provider configuration `CSConfig`. -/
structure CSConfig where
  Global : CSConfigGlobal

/-- Adapter record `CSCloud` as constructed by `newCSCloud`; the client is
`none` exactly when the Go field is a nil pointer. -/
structure CSCloud where
  client : Option ClientHandle
  projectID : String
  zone : String

/-- Constant `ProviderName`, the name of this cloud provider. -/
def ProviderName : String := "external-cloudstack"

namespace corev1

/-- Address-type tags of `corev1.NodeAddress` used by the adapter. -/
inductive NodeAddressType where
  | InternalIP
  | HostName
  | ExternalIP
deriving Repr, DecidableEq

/-- Entry of a node address list (`corev1.NodeAddress`). -/
structure NodeAddress where
  type : NodeAddressType
  address : String
deriving Repr, DecidableEq

/-- Node object; the adapter reads only its name. -/
structure Node where
  Name : String
deriving Repr, DecidableEq

end corev1

namespace cloudprovider

/-- Zone record `cloudprovider.Zone`. -/
structure Zone where
  FailureDomain : String
  Region : String
deriving Repr, DecidableEq

/-- Metadata record `cloudprovider.InstanceMetadata`. -/
structure InstanceMetadata where
  ProviderID : String
  InstanceType : String
  NodeAddresses : List corev1.NodeAddress
  Zone : String
  Region : String
deriving Repr, DecidableEq

end cloudprovider

/-- Errors returned by the adapter operations: the sentinel
`cloudprovider.InstanceNotFound` or a formatted (`fmt.Errorf` /
`errors.New`) message.  A Go result `(x, nil)` is modelled as `.ok x`, and
`(zeroValue, err)` with `err != nil` as `.error e`. -/
inductive CSError where
  | instanceNotFound
  | errorMsg (msg : String)
deriving Repr, DecidableEq

/-- Result of an adapter operation paired with the trace of remote lookups
the operation performed, in order. -/
abbrev Traced (α : Type) := Except CSError α × List RemoteCall

/-- Process environment of the adapter: the result of `os.Hostname()`. -/
structure Env where
  hostname : Except String String

/-! ### Construction and capability negotiation (`cloudstack.go`) -/

/-- Embeds `newCSCloud`.  The library constructor
`cloudstack.NewAsyncClient` is external to this repository, so it is passed
as an oracle `mkClient`; the source calls it with the URL, the key, the
secret, and `!SSLNoVerify`, and only when URL, key and secret are all
non-empty.  If no client was constructed the function fails with
`errors.New("no cloud provider config given")`. -/
def newCSCloud (mkClient : String → String → String → Bool → ClientHandle)
    (cfg : CSConfig) : Except String CSCloud :=
  let cs : CSCloud :=
    { client := none, projectID := cfg.Global.ProjectID, zone := cfg.Global.Zone }
  let cs : CSCloud :=
    if cfg.Global.APIURL != "" && cfg.Global.APIKey != "" &&
        cfg.Global.SecretKey != "" then
      { cs with
          client := some (mkClient cfg.Global.APIURL cfg.Global.APIKey
            cfg.Global.SecretKey (!cfg.Global.SSLNoVerify)) }
    else cs
  match cs.client with
  | none => .error "no cloud provider config given"
  | some _ => .ok cs

/-- Embeds the `LoadBalancer` capability query: `(nil, false)` without a
client, otherwise the adapter itself and `true`. -/
def LoadBalancer (cs : CSCloud) : Option CSCloud × Bool :=
  match cs.client with
  | none => (none, false)
  | some _ => (some cs, true)

/-- Embeds the `Instances` capability query. -/
def Instances (cs : CSCloud) : Option CSCloud × Bool :=
  match cs.client with
  | none => (none, false)
  | some _ => (some cs, true)

/-- Embeds the `InstancesV2` capability query. -/
def InstancesV2 (cs : CSCloud) : Option CSCloud × Bool :=
  match cs.client with
  | none => (none, false)
  | some _ => (some cs, true)

/-- Embeds the `Zones` capability query. -/
def Zones (cs : CSCloud) : Option CSCloud × Bool :=
  match cs.client with
  | none => (none, false)
  | some _ => (some cs, true)

/-- Embeds the `Clusters` capability query: unsupported in both branches
(with a warning log, not modelled, when a client exists). -/
def Clusters (cs : CSCloud) : Option CSCloud × Bool :=
  match cs.client with
  | none => (none, false)
  | some _ => (none, false)

/-- Embeds the `Routes` capability query: unsupported in both branches. -/
def Routes (cs : CSCloud) : Option CSCloud × Bool :=
  match cs.client with
  | none => (none, false)
  | some _ => (none, false)

/-! ### Instance and zone operations

The Go methods below dereference `cs.client` unconditionally (the
orchestrator obtains the adapter only through the capability queries, which
hand it out only when a client exists), so they are modelled on a refinement
of `CSCloud` whose client is present. -/

/-- Adapter whose client has been constructed (`cs.client != nil`). -/
structure CSCloudLive where
  client : ClientHandle
  projectID : String
  zone : String

/-- Embeds the address-assembly helper `nodeAddresses`: requires at least
one network interface; the internal IP (first interface) always, the host
name entry only when `Hostname` is non-empty, the external IP entry only
when `Publicip` is non-empty (otherwise a log notice, not modelled, and no
entry). -/
def nodeAddresses (vm : VirtualMachine) :
    Except CSError (List corev1.NodeAddress) :=
  match vm.Nic with
  | [] => .error (.errorMsg "instance does not have an internal IP")
  | nic0 :: _ =>
    let addresses : List corev1.NodeAddress := [⟨.InternalIP, nic0.Ipaddress⟩]
    let addresses :=
      if vm.Hostname != "" then addresses ++ [⟨.HostName, vm.Hostname⟩]
      else addresses
    let addresses :=
      if vm.Publicip != "" then addresses ++ [⟨.ExternalIP, vm.Publicip⟩]
      else addresses
    .ok addresses

/-- Embeds `NodeAddresses`: one lookup by name scoped to the project, then
address assembly; zero matches map to `cloudprovider.InstanceNotFound`, any
other remote failure is wrapped. -/
def NodeAddresses (cs : CSCloudLive) (name : String) :
    Traced (List corev1.NodeAddress) :=
  match cs.client.getVirtualMachineByName name (some cs.projectID) with
  | .err count msg =>
    (if count == 0 then .error .instanceNotFound
     else .error (.errorMsg ("error retrieving node addresses: " ++ msg)),
     [.byName name (some cs.projectID)])
  | .ok vm => (nodeAddresses vm, [.byName name (some cs.projectID)])

/-- Embeds `NodeAddressesByProviderID`: one lookup by identifier scoped to
the project, then address assembly. -/
def NodeAddressesByProviderID (cs : CSCloudLive) (providerID : String) :
    Traced (List corev1.NodeAddress) :=
  match cs.client.getVirtualMachineByID providerID (some cs.projectID) with
  | .err count msg =>
    (if count == 0 then .error .instanceNotFound
     else .error (.errorMsg ("error retrieving node addresses: " ++ msg)),
     [.byID providerID (some cs.projectID)])
  | .ok vm => (nodeAddresses vm, [.byID providerID (some cs.projectID)])

/-- Embeds `InstanceID`: one lookup by name scoped to the project; returns
the instance identifier. -/
def InstanceID (cs : CSCloudLive) (name : String) : Traced String :=
  match cs.client.getVirtualMachineByName name (some cs.projectID) with
  | .err count msg =>
    (if count == 0 then .error .instanceNotFound
     else .error (.errorMsg ("error retrieving instance ID: " ++ msg)),
     [.byName name (some cs.projectID)])
  | .ok vm => (.ok vm.Id, [.byName name (some cs.projectID)])

/-- Embeds `InstanceType`: one lookup by name scoped to the project; returns
the sanitized service-offering name. -/
def InstanceType (cs : CSCloudLive) (name : String) : Traced String :=
  match cs.client.getVirtualMachineByName name (some cs.projectID) with
  | .err count msg =>
    (if count == 0 then .error .instanceNotFound
     else .error (.errorMsg ("error retrieving instance type: " ++ msg)),
     [.byName name (some cs.projectID)])
  | .ok vm =>
    (.ok (sanitizeLabel vm.Serviceofferingname), [.byName name (some cs.projectID)])

/-- Embeds `InstanceTypeByProviderID`: one lookup by identifier scoped to
the project; returns the sanitized service-offering name. -/
def InstanceTypeByProviderID (cs : CSCloudLive) (providerID : String) :
    Traced String :=
  match cs.client.getVirtualMachineByID providerID (some cs.projectID) with
  | .err count msg =>
    (if count == 0 then .error .instanceNotFound
     else .error (.errorMsg ("error retrieving instance type: " ++ msg)),
     [.byID providerID (some cs.projectID)])
  | .ok vm =>
    (.ok (sanitizeLabel vm.Serviceofferingname), [.byID providerID (some cs.projectID)])

/-- Embeds `InstanceExistsByProviderID`: one lookup by identifier scoped to
the project; zero matches yield `(false, nil)`, any other remote failure a
wrapped error, success `(true, nil)`. -/
def InstanceExistsByProviderID (cs : CSCloudLive) (providerID : String) :
    Traced Bool :=
  match cs.client.getVirtualMachineByID providerID (some cs.projectID) with
  | .err count msg =>
    (if count == 0 then .ok false
     else .error (.errorMsg ("error retrieving instance: " ++ msg)),
     [.byID providerID (some cs.projectID)])
  | .ok _ => (.ok true, [.byID providerID (some cs.projectID)])

/-- Embeds `InstanceExists`: resolves the node name to a provider ID via
`InstanceID` (first remote lookup), propagating its error, then delegates to
`InstanceExistsByProviderID` (second remote lookup). -/
def InstanceExists (cs : CSCloudLive) (node : corev1.Node) : Traced Bool :=
  match InstanceID cs node.Name with
  | (.error e, t1) => (.error e, t1)
  | (.ok providerID, t1) =>
    let r := InstanceExistsByProviderID cs providerID
    (r.1, t1 ++ r.2)

/-- Embeds `GetZone` (`cloudstack.go`): when the cached zone is empty,
resolve the local host name (`os.Hostname`), look that name up remotely
with no project option, and cache the instance's zone name; otherwise no
remote call.  Returns the cached zone as both failure domain and region,
together with the updated adapter state and the trace. -/
def GetZone (cs : CSCloudLive) (env : Env) :
    Except CSError cloudprovider.Zone × CSCloudLive × List RemoteCall :=
  if cs.zone == "" then
    match env.hostname with
    | .error e =>
      (.error (.errorMsg ("failed to get hostname for retrieving the zone: " ++ e)),
       cs, [])
    | .ok hostname =>
      match cs.client.getVirtualMachineByName hostname none with
      | .err count msg =>
        (if count == 0 then
           .error (.errorMsg ("could not find instance for retrieving the zone: " ++ msg))
         else
           .error (.errorMsg ("error getting instance for retrieving the zone: " ++ msg)),
         cs, [.byName hostname none])
      | .ok vm =>
        let cs' : CSCloudLive := { cs with zone := vm.Zonename }
        (.ok ⟨cs'.zone, cs'.zone⟩, cs', [.byName hostname none])
  else
    (.ok ⟨cs.zone, cs.zone⟩, cs, [])

/-- Embeds `GetZoneByProviderID`: always one fresh lookup by identifier
scoped to the project; the cached zone is neither read (for the result) nor
written. -/
def GetZoneByProviderID (cs : CSCloudLive) (providerID : String) :
    Traced cloudprovider.Zone :=
  match cs.client.getVirtualMachineByID providerID (some cs.projectID) with
  | .err count msg =>
    (if count == 0 then
       .error (.errorMsg ("could not find node by ID: " ++ providerID))
     else
       .error (.errorMsg ("error retrieving zone: " ++ msg)),
     [.byID providerID (some cs.projectID)])
  | .ok vm => (.ok ⟨vm.Zonename, vm.Zonename⟩, [.byID providerID (some cs.projectID)])

/-- Embeds `GetZoneByNodeName`: always one fresh lookup by name scoped to
the project; the cached zone is neither read (for the result) nor
written. -/
def GetZoneByNodeName (cs : CSCloudLive) (nodeName : String) :
    Traced cloudprovider.Zone :=
  match cs.client.getVirtualMachineByName nodeName (some cs.projectID) with
  | .err count msg =>
    (if count == 0 then
       .error (.errorMsg ("could not find node: " ++ nodeName))
     else
       .error (.errorMsg ("error retrieving zone: " ++ msg)),
     [.byName nodeName (some cs.projectID)])
  | .ok vm => (.ok ⟨vm.Zonename, vm.Zonename⟩, [.byName nodeName (some cs.projectID)])

/-- Embeds `InstanceMetadata`: `InstanceType` for the node's name, then
`NodeAddresses` for the node's name, then `GetZone` (the current zone, not
the node's), each failure returned unchanged; on success assembles the
record with `ProviderID := ProviderName`, the computed type and addresses,
`Zone := cs.zone` (the post-`GetZone` cached zone, the receiver being a
pointer) and `Region := zone.Region`. -/
def InstanceMetadata (cs : CSCloudLive) (env : Env) (node : corev1.Node) :
    Except CSError cloudprovider.InstanceMetadata × CSCloudLive × List RemoteCall :=
  match InstanceType cs node.Name with
  | (.error e, t1) => (.error e, cs, t1)
  | (.ok instanceType, t1) =>
    match NodeAddresses cs node.Name with
    | (.error e, t2) => (.error e, cs, t1 ++ t2)
    | (.ok addresses, t2) =>
      match GetZone cs env with
      | (.error e, cs', t3) => (.error e, cs', t1 ++ t2 ++ t3)
      | (.ok zone, cs', t3) =>
        (.ok ⟨ProviderName, instanceType, addresses, cs'.zone, zone.Region⟩,
         cs', t1 ++ t2 ++ t3)

/-! ### Claim C1 — type sanitization -/

/-- Fixture machine for C1 with service offering "m1.small!!". -/
def vmC1a : VirtualMachine :=
  ⟨"vm-1", "nodeA", "", "", "zone-a", "m1.small!!", [⟨"10.0.0.5"⟩]⟩

/-- Fixture machine for C1 with service offering "##gpu-large". -/
def vmC1b : VirtualMachine :=
  ⟨"vm-2", "nodeB", "", "", "zone-a", "##gpu-large", [⟨"10.0.0.6"⟩]⟩

/-- Fixture adapter for C1. -/
def csC1 : CSCloudLive :=
  ⟨⟨fun _ _ => .ok vmC1a, fun _ _ => .ok vmC1b⟩, "", ""⟩

/-- Claim C1 as stated is false: the sanitizing regex deletes internal
punctuation as well (each lone non-alphanumeric character matches the
mandatory `[^A-Za-z0-9]` with the optional group absent), so service
offering "m1.small!!" yields "m1small", not "m1.small", and "##gpu-large"
yields "gpularge", not "gpu-large". -/
theorem c1_type_sanitization_counterexample :
    (InstanceType csC1 "nodeA").1 = .ok "m1small" ∧
    "m1small" ≠ "m1.small" ∧
    (InstanceTypeByProviderID csC1 "vm-2").1 = .ok "gpularge" ∧
    "gpularge" ≠ "gpu-large" :=
  ⟨rfl, by decide, rfl, by decide⟩

/-- Claim C1 (amended): for every service-offering name, the instance-type
operations (type by node name and type by opaque identifier) return the
name with every character outside `[A-Za-z0-9]` removed — internal "-",
"_", "." included; in particular "m1.small!!" yields "m1small" and
"##gpu-large" yields "gpularge". -/
theorem c1_type_sanitization (cs : CSCloudLive) (name providerID : String)
    (vm vm' : VirtualMachine)
    (hn : cs.client.getVirtualMachineByName name (some cs.projectID) = .ok vm)
    (hi : cs.client.getVirtualMachineByID providerID (some cs.projectID) = .ok vm') :
    (InstanceType cs name).1 =
      .ok ⟨vm.Serviceofferingname.data.filter isLabelAlnum⟩ ∧
    (InstanceTypeByProviderID cs providerID).1 =
      .ok ⟨vm'.Serviceofferingname.data.filter isLabelAlnum⟩ := by
  constructor
  · simp [InstanceType, hn, sanitizeLabel, replaceAllList_eq_filter]
  · simp [InstanceTypeByProviderID, hi, sanitizeLabel, replaceAllList_eq_filter]

/-- Instantiation of the amended claim C1 at the fixture adapter. -/
theorem c1_type_sanitization_witness :
    csC1.client.getVirtualMachineByName "nodeA" (some csC1.projectID) = .ok vmC1a ∧
    csC1.client.getVirtualMachineByID "vm-2" (some csC1.projectID) = .ok vmC1b ∧
    (InstanceType csC1 "nodeA").1 =
      .ok ⟨vmC1a.Serviceofferingname.data.filter isLabelAlnum⟩ ∧
    (InstanceTypeByProviderID csC1 "vm-2").1 =
      .ok ⟨vmC1b.Serviceofferingname.data.filter isLabelAlnum⟩ := by
  have h := c1_type_sanitization csC1 "nodeA" "vm-2" vmC1a vmC1b rfl rfl
  exact ⟨rfl, rfl, h.1, h.2⟩

/-! ### Claim C2 — one remote lookup per operation -/

/-- Fixture machine for C2. -/
def vmC2 : VirtualMachine :=
  ⟨"vm-1", "node1", "", "", "zone-a", "m1", [⟨"10.0.0.5"⟩]⟩

/-- Fixture adapter for C2 whose lookups always succeed. -/
def csC2 : CSCloudLive :=
  ⟨⟨fun _ _ => .ok vmC2, fun _ _ => .ok vmC2⟩, "proj", ""⟩

/-- Claim C2 as stated is false for existence-by-node-object:
`InstanceExists` first resolves the name to a provider ID (`InstanceID`,
one lookup by name) and then calls `InstanceExistsByProviderID` (a second
lookup by identifier), so it performs two remote lookups, not exactly
one. -/
theorem c2_single_lookup_counterexample :
    (InstanceExists csC2 ⟨"node1"⟩).2 =
      [.byName "node1" (some "proj"), .byID "vm-1" (some "proj")] ∧
    (InstanceExists csC2 ⟨"node1"⟩).2.length ≠ 1 :=
  ⟨rfl, by decide⟩

/-- Claim C2 (amended): addresses-by-node-name, addresses-by-opaque-
identifier, identifier-by-node-name, type-by-node-name, type-by-opaque-
identifier and existence-by-opaque-identifier each perform exactly one
remote instance lookup; existence-by-node-object performs one remote lookup
when the name lookup fails and exactly two (one by name, then one by the
resolved identifier) when it succeeds. -/
theorem c2_single_lookup (cs : CSCloudLive) (name providerID : String)
    (node : corev1.Node) :
    (NodeAddresses cs name).2.length = 1 ∧
    (NodeAddressesByProviderID cs providerID).2.length = 1 ∧
    (InstanceID cs name).2.length = 1 ∧
    (InstanceType cs name).2.length = 1 ∧
    (InstanceTypeByProviderID cs providerID).2.length = 1 ∧
    (InstanceExistsByProviderID cs providerID).2.length = 1 ∧
    (∀ e, (InstanceID cs node.Name).1 = .error e →
       (InstanceExists cs node).2.length = 1) ∧
    (∀ pid, (InstanceID cs node.Name).1 = .ok pid →
       (InstanceExists cs node).2.length = 2) := by
  refine ⟨?_, ?_, ?_, ?_, ?_, ?_, ?_, ?_⟩
  · cases h : cs.client.getVirtualMachineByName name (some cs.projectID) <;>
      simp [NodeAddresses, h]
  · cases h : cs.client.getVirtualMachineByID providerID (some cs.projectID) <;>
      simp [NodeAddressesByProviderID, h]
  · cases h : cs.client.getVirtualMachineByName name (some cs.projectID) <;>
      simp [InstanceID, h]
  · cases h : cs.client.getVirtualMachineByName name (some cs.projectID) <;>
      simp [InstanceType, h]
  · cases h : cs.client.getVirtualMachineByID providerID (some cs.projectID) <;>
      simp [InstanceTypeByProviderID, h]
  · cases h : cs.client.getVirtualMachineByID providerID (some cs.projectID) <;>
      simp [InstanceExistsByProviderID, h]
  · intro e he
    cases hn : cs.client.getVirtualMachineByName node.Name (some cs.projectID) with
    | ok vm => simp [InstanceID, hn] at he
    | err count msg =>
      by_cases hc : count = 0 <;>
        simp [InstanceExists, InstanceID, hn, hc]
  · intro pid hp
    cases hn : cs.client.getVirtualMachineByName node.Name (some cs.projectID) with
    | ok vm =>
      cases hid : cs.client.getVirtualMachineByID vm.Id (some cs.projectID) <;>
        simp [InstanceExists, InstanceID, hn, InstanceExistsByProviderID, hid]
    | err count msg =>
      by_cases hc : count = 0 <;>
        simp [InstanceID, hn, hc] at hp

/-- Instantiation of the amended claim C2 at the fixture adapter. -/
theorem c2_single_lookup_witness :
    (InstanceID csC2 "node1").1 = .ok "vm-1" ∧
    (InstanceExists csC2 ⟨"node1"⟩).2.length = 2 ∧
    (NodeAddresses csC2 "node1").2.length = 1 :=
  ⟨rfl,
   (c2_single_lookup csC2 "node1" "vm-1" ⟨"node1"⟩).2.2.2.2.2.2.2 "vm-1" rfl,
   (c2_single_lookup csC2 "node1" "vm-1" ⟨"node1"⟩).1⟩

/-! ### Claim C3 — metadata assembly -/

/-- Fixture machine for C3 named nodeA in zone-a. -/
def vmC3a : VirtualMachine :=
  ⟨"vm-a", "nodeA", "", "", "zone-a", "m1", [⟨"10.0.0.5"⟩]⟩

/-- Fixture machine for C3: the local host, in zone-b. -/
def vmC3b : VirtualMachine :=
  ⟨"vm-b", "hostB", "", "", "zone-b", "m2", [⟨"10.0.0.6"⟩]⟩

/-- Fixture adapter for C3: by-name lookups resolve nodeA to `vmC3a` and
anything else (the local host) to `vmC3b`. -/
def csC3 : CSCloudLive :=
  ⟨⟨fun n _ => if n == "nodeA" then .ok vmC3a else .ok vmC3b,
    fun _ _ => .ok vmC3a⟩, "", ""⟩

/-- Fixture environment for C3: the local host name is hostB. -/
def envC3 : Env := ⟨.ok "hostB"⟩

/-- Claim C3 as stated is false in its "zone lookup for that same node"
part: `InstanceMetadata` calls `GetZone`, which resolves the zone of the
local host (here hostB, zone-b), not of the node (nodeA, zone-a); the
metadata for nodeA reports zone-b while the node's own zone is zone-a. -/
theorem c3_metadata_counterexample :
    (InstanceMetadata csC3 envC3 ⟨"nodeA"⟩).2.2 =
      [.byName "nodeA" (some ""), .byName "nodeA" (some ""),
       .byName "hostB" none] ∧
    (InstanceMetadata csC3 envC3 ⟨"nodeA"⟩).1 =
      .ok ⟨"external-cloudstack", "m1", [⟨.InternalIP, "10.0.0.5"⟩],
           "zone-b", "zone-b"⟩ ∧
    (GetZoneByNodeName csC3 "nodeA").1 = .ok ⟨"zone-a", "zone-a"⟩ ∧
    "zone-b" ≠ "zone-a" :=
  ⟨rfl, rfl, rfl, by decide⟩

/-- Claim C3 (amended): for every node, the metadata operation performs the
type lookup, then the address lookup for that node, then the current-zone
resolution (`GetZone`, which uses the cached zone or the local host's name,
not the node's name), in sequence, returning the first failing
sub-operation's error unchanged, in that priority order; on success it
assembles a single record combining the three results whose provider-ID
field is the provider's constant name. -/
theorem c3_metadata (cs : CSCloudLive) (env : Env) (node : corev1.Node) :
    (∀ e, (InstanceType cs node.Name).1 = .error e →
       (InstanceMetadata cs env node).1 = .error e) ∧
    (∀ t e, (InstanceType cs node.Name).1 = .ok t →
       (NodeAddresses cs node.Name).1 = .error e →
       (InstanceMetadata cs env node).1 = .error e) ∧
    (∀ t a e, (InstanceType cs node.Name).1 = .ok t →
       (NodeAddresses cs node.Name).1 = .ok a →
       (GetZone cs env).1 = .error e →
       (InstanceMetadata cs env node).1 = .error e) ∧
    (∀ t a z, (InstanceType cs node.Name).1 = .ok t →
       (NodeAddresses cs node.Name).1 = .ok a →
       (GetZone cs env).1 = .ok z →
       (InstanceMetadata cs env node).1 =
         .ok ⟨ProviderName, t, a, (GetZone cs env).2.1.zone, z.Region⟩) := by
  refine ⟨?_, ?_, ?_, ?_⟩
  · intro e he
    rcases hT : InstanceType cs node.Name with ⟨rT, tT⟩
    rw [hT] at he
    simp at he
    subst he
    simp [InstanceMetadata, hT]
  · intro t e ht he
    rcases hT : InstanceType cs node.Name with ⟨rT, tT⟩
    rcases hA : NodeAddresses cs node.Name with ⟨rA, tA⟩
    rw [hT] at ht
    rw [hA] at he
    simp at ht he
    subst ht
    subst he
    simp [InstanceMetadata, hT, hA]
  · intro t a e ht ha he
    rcases hT : InstanceType cs node.Name with ⟨rT, tT⟩
    rcases hA : NodeAddresses cs node.Name with ⟨rA, tA⟩
    rcases hZ : GetZone cs env with ⟨rZ, csZ, tZ⟩
    rw [hT] at ht
    rw [hA] at ha
    rw [hZ] at he
    simp at ht ha he
    subst ht
    subst ha
    subst he
    simp [InstanceMetadata, hT, hA, hZ]
  · intro t a z ht ha hz
    rcases hT : InstanceType cs node.Name with ⟨rT, tT⟩
    rcases hA : NodeAddresses cs node.Name with ⟨rA, tA⟩
    rcases hZ : GetZone cs env with ⟨rZ, csZ, tZ⟩
    rw [hT] at ht
    rw [hA] at ha
    rw [hZ] at hz
    simp at ht ha hz
    subst ht
    subst ha
    subst hz
    simp [InstanceMetadata, hT, hA, hZ]

/-- Instantiation of the amended claim C3 at the all-success fixture. -/
theorem c3_metadata_witness :
    (InstanceType csC3 "nodeA").1 = .ok "m1" ∧
    (NodeAddresses csC3 "nodeA").1 = .ok [⟨.InternalIP, "10.0.0.5"⟩] ∧
    (GetZone csC3 envC3).1 = .ok ⟨"zone-b", "zone-b"⟩ ∧
    (InstanceMetadata csC3 envC3 ⟨"nodeA"⟩).1 =
      .ok ⟨"external-cloudstack", "m1", [⟨.InternalIP, "10.0.0.5"⟩],
           "zone-b", "zone-b"⟩ :=
  ⟨rfl, rfl, rfl,
   (c3_metadata csC3 envC3 ⟨"nodeA"⟩).2.2.2 "m1" [⟨.InternalIP, "10.0.0.5"⟩]
     ⟨"zone-b", "zone-b"⟩ rfl rfl rfl⟩

/-! ### Claim C4 — address assembly -/

/-- Fixture machine for C4: one interface, no host name, no public IP. -/
def vmC4a : VirtualMachine :=
  ⟨"vm-1", "node1", "", "", "zone-a", "m1", [⟨"10.0.0.5"⟩]⟩

/-- Fixture machine for C4: one interface, host name node1, public IP
203.0.113.9. -/
def vmC4b : VirtualMachine :=
  ⟨"vm-1", "node1", "node1", "203.0.113.9", "zone-a", "m1", [⟨"10.0.0.5"⟩]⟩

/-- Fixture adapter for C4 resolving every lookup to `vmC4b`. -/
def csC4 : CSCloudLive :=
  ⟨⟨fun _ _ => .ok vmC4b, fun _ _ => .ok vmC4b⟩, "", ""⟩

/-- Claim C4: for every remote instance record with no network interface
the address assembly fails with the domain error, and otherwise it returns,
in order, the first interface's address as internal IP (always), a
host-name entry only when the host name is non-empty, and an external-IP
entry only when the public IP is non-empty (omitted without error
otherwise); the two address operations return exactly this assembly for the
record fetched by their single lookup. -/
theorem c4_node_addresses (cs : CSCloudLive) (name providerID : String)
    (vm : VirtualMachine) :
    (vm.Nic = [] →
       nodeAddresses vm =
         .error (.errorMsg "instance does not have an internal IP")) ∧
    (∀ nic0 rest, vm.Nic = nic0 :: rest →
       nodeAddresses vm = .ok
         ([⟨.InternalIP, nic0.Ipaddress⟩] ++
          (if vm.Hostname ≠ "" then [⟨.HostName, vm.Hostname⟩] else []) ++
          (if vm.Publicip ≠ "" then [⟨.ExternalIP, vm.Publicip⟩] else []))) ∧
    (cs.client.getVirtualMachineByName name (some cs.projectID) = .ok vm →
       (NodeAddresses cs name).1 = nodeAddresses vm) ∧
    (cs.client.getVirtualMachineByID providerID (some cs.projectID) = .ok vm →
       (NodeAddressesByProviderID cs providerID).1 = nodeAddresses vm) := by
  refine ⟨?_, ?_, ?_, ?_⟩
  · intro h
    simp [nodeAddresses, h]
  · intro nic0 rest h
    by_cases hh : vm.Hostname = "" <;> by_cases hp : vm.Publicip = "" <;>
      simp [nodeAddresses, h, hh, hp]
  · intro h
    simp [NodeAddresses, h]
  · intro h
    simp [NodeAddressesByProviderID, h]

/-- Instantiation of claim C4 at the two example records of the spec. -/
theorem c4_node_addresses_witness :
    vmC4a.Nic = [⟨"10.0.0.5"⟩] ∧
    nodeAddresses vmC4a = .ok [⟨.InternalIP, "10.0.0.5"⟩] ∧
    nodeAddresses vmC4b = .ok [⟨.InternalIP, "10.0.0.5"⟩,
      ⟨.HostName, "node1"⟩, ⟨.ExternalIP, "203.0.113.9"⟩] ∧
    (NodeAddresses csC4 "node1").1 = nodeAddresses vmC4b := by
  refine ⟨rfl, ?_, ?_, ?_⟩
  · have h := (c4_node_addresses csC4 "node1" "vm-1" vmC4a).2.1 ⟨"10.0.0.5"⟩ [] rfl
    simpa using h
  · have h := (c4_node_addresses csC4 "node1" "vm-1" vmC4b).2.1 ⟨"10.0.0.5"⟩ [] rfl
    simpa using h
  · exact (c4_node_addresses csC4 "node1" "vm-1" vmC4b).2.2.1 rfl

/-! ### Claim C5 — current-zone resolution and caching -/

/-- Fixture machine for the C5 counterexample: its zone name is empty. -/
def vmC5e : VirtualMachine :=
  ⟨"vm-h", "hostB", "", "", "", "m1", [⟨"10.0.0.7"⟩]⟩

/-- Fixture machine for the C5 instantiation: zone name zone-a. -/
def vmC5 : VirtualMachine :=
  ⟨"vm-h", "hostB", "", "", "zone-a", "m1", [⟨"10.0.0.7"⟩]⟩

/-- Fixture adapter for the C5 counterexample (empty cached zone). -/
def csC5e : CSCloudLive :=
  ⟨⟨fun _ _ => .ok vmC5e, fun _ _ => .ok vmC5e⟩, "", ""⟩

/-- Fixture adapter for the C5 instantiation (empty cached zone). -/
def csC5 : CSCloudLive :=
  ⟨⟨fun _ _ => .ok vmC5, fun _ _ => .ok vmC5⟩, "", ""⟩

/-- Fixture environment for C5: the local host name is hostB. -/
def envC5 : Env := ⟨.ok "hostB"⟩

/-- Claim C5 as stated is false when the remote lookup returns an empty
zone name: the first call caches "" — indistinguishable from the initial
empty cache — so the second call performs a further remote lookup instead
of returning a cached value without one. -/
theorem c5_zone_cache_counterexample :
    (GetZone csC5e envC5).2.2 = [.byName "hostB" none] ∧
    (GetZone (GetZone csC5e envC5).2.1 envC5).2.2 = [.byName "hostB" none] ∧
    ([RemoteCall.byName "hostB" none] : List RemoteCall) ≠ [] :=
  ⟨rfl, rfl, by decide⟩

/-- Claim C5 (amended): when the cached zone is empty, host-name resolution
succeeds and the remote lookup by the local host name succeeds with a
non-empty zone name, the first resolve-current-zone call performs exactly
that one remote lookup and caches the returned zone name; a second call on
the resulting state returns the cached value without a further remote
lookup; and every successful call returns a zone record with
failure-domain and region both equal to the (post-call) cached zone
name. -/
theorem c5_zone_cache (cs : CSCloudLive) (env : Env) (h : String)
    (vm : VirtualMachine)
    (hz : cs.zone = "")
    (hh : env.hostname = .ok h)
    (hl : cs.client.getVirtualMachineByName h none = .ok vm)
    (hnz : vm.Zonename ≠ "") :
    GetZone cs env =
      (.ok ⟨vm.Zonename, vm.Zonename⟩, { cs with zone := vm.Zonename },
       [.byName h none]) ∧
    (∀ env2, GetZone { cs with zone := vm.Zonename } env2 =
       (.ok ⟨vm.Zonename, vm.Zonename⟩, { cs with zone := vm.Zonename }, [])) ∧
    (∀ cs2 env2 z, (GetZone cs2 env2).1 = .ok z →
       z.FailureDomain = (GetZone cs2 env2).2.1.zone ∧
       z.Region = (GetZone cs2 env2).2.1.zone) := by
  refine ⟨?_, ?_, ?_⟩
  · simp [GetZone, hz, hh, hl]
  · intro env2
    simp [GetZone, hnz]
  · intro cs2 env2 z hok
    by_cases hz2 : cs2.zone = ""
    · cases hh2 : env2.hostname with
      | error e => simp [GetZone, hz2, hh2] at hok
      | ok hn =>
        cases hl2 : cs2.client.getVirtualMachineByName hn none with
        | ok vm2 =>
          simp [GetZone, hz2, hh2, hl2] at hok ⊢
          simp [← hok]
        | err cnt m =>
          by_cases hc : cnt = 0 <;>
            simp [GetZone, hz2, hh2, hl2, hc] at hok
    · simp [GetZone, hz2] at hok ⊢
      simp [← hok]

/-- Instantiation of the amended claim C5 at the fixture adapter. -/
theorem c5_zone_cache_witness :
    csC5.zone = "" ∧
    envC5.hostname = .ok "hostB" ∧
    csC5.client.getVirtualMachineByName "hostB" none = .ok vmC5 ∧
    vmC5.Zonename ≠ "" ∧
    GetZone csC5 envC5 =
      (.ok ⟨"zone-a", "zone-a"⟩, { csC5 with zone := "zone-a" },
       [.byName "hostB" none]) ∧
    GetZone { csC5 with zone := "zone-a" } envC5 =
      (.ok ⟨"zone-a", "zone-a"⟩, { csC5 with zone := "zone-a" }, []) :=
  have h := c5_zone_cache csC5 envC5 "hostB" vmC5 rfl rfl rfl (by decide)
  ⟨rfl, rfl, rfl, by decide, h.1, h.2.1 envC5⟩

/-! ### Claim C6 — adapter construction -/

/-- Fixture stand-in for the external `cloudstack.NewAsyncClient`. -/
def mkClientC6 : String → String → String → Bool → ClientHandle :=
  fun _ _ _ _ => ⟨fun _ _ => .err 0 "", fun _ _ => .err 0 ""⟩

/-- Fixture configuration for C6 with an empty endpoint URL. -/
def cfgC6 : CSConfig := ⟨⟨"", "key", "secret", false, "proj", "zone-a"⟩⟩

/-- Fixture configuration for C6 with all credentials present. -/
def cfgC6ok : CSConfig :=
  ⟨⟨"https://api", "key", "secret", false, "proj", "zone-a"⟩⟩

/-- Claim C6 as stated is false in its quoted message: construction with an
empty setting fails with `errors.New("no cloud provider config given")`,
not "no provider configuration given". -/
theorem c6_construction_counterexample :
    newCSCloud mkClientC6 cfgC6 = .error "no cloud provider config given" ∧
    "no cloud provider config given" ≠ "no provider configuration given" :=
  ⟨rfl, by decide⟩

/-- Claim C6 (amended): adapter construction fails with the configuration
error "no cloud provider config given" whenever any of the endpoint URL,
API key, or secret key settings is empty, and succeeds whenever all three
are non-empty, constructing the adapter whose client is the one the
external constructor returns for exactly that endpoint, key, secret and
TLS-verification flag. -/
theorem c6_construction
    (mkClient : String → String → String → Bool → ClientHandle)
    (cfg : CSConfig) :
    (cfg.Global.APIURL = "" ∨ cfg.Global.APIKey = "" ∨
        cfg.Global.SecretKey = "" →
       newCSCloud mkClient cfg = .error "no cloud provider config given") ∧
    (cfg.Global.APIURL ≠ "" → cfg.Global.APIKey ≠ "" →
        cfg.Global.SecretKey ≠ "" →
       newCSCloud mkClient cfg = .ok
         ⟨some (mkClient cfg.Global.APIURL cfg.Global.APIKey
            cfg.Global.SecretKey (!cfg.Global.SSLNoVerify)),
          cfg.Global.ProjectID, cfg.Global.Zone⟩) := by
  constructor
  · intro h
    rcases h with h | h | h <;> simp [newCSCloud, h]
  · intro h1 h2 h3
    simp [newCSCloud, h1, h2, h3]

/-- Instantiation of the amended claim C6 at the fixture configurations. -/
theorem c6_construction_witness :
    cfgC6.Global.APIURL = "" ∧
    newCSCloud mkClientC6 cfgC6 = .error "no cloud provider config given" ∧
    cfgC6ok.Global.APIURL ≠ "" ∧
    newCSCloud mkClientC6 cfgC6ok = .ok
      ⟨some (mkClientC6 "https://api" "key" "secret" true), "proj", "zone-a"⟩ :=
  have h := c6_construction mkClientC6 cfgC6
  have h2 := c6_construction mkClientC6 cfgC6ok
  ⟨rfl, h.1 (Or.inl rfl), by decide,
   h2.2 (by decide) (by decide) (by decide)⟩

/-! ### Claim C7 — capability negotiation -/

/-- Fixture client for C7. -/
def clientC7 : ClientHandle := ⟨fun _ _ => .err 0 "", fun _ _ => .err 0 ""⟩

/-- Fixture adapter for C7 with a constructed client. -/
def csC7some : CSCloud := ⟨some clientC7, "", ""⟩

/-- Fixture adapter for C7 without a client. -/
def csC7none : CSCloud := ⟨none, "", ""⟩

/-- Claim C7: with a constructed client the load-balancer, instances,
instances-v2 and zones capability queries report supported (returning the
adapter itself) and clusters and routes report unsupported; with no client
every capability query reports unsupported. -/
theorem c7_capabilities (cs : CSCloud) :
    ((∃ c, cs.client = some c) →
       LoadBalancer cs = (some cs, true) ∧ Instances cs = (some cs, true) ∧
       InstancesV2 cs = (some cs, true) ∧ Zones cs = (some cs, true) ∧
       Clusters cs = (none, false) ∧ Routes cs = (none, false)) ∧
    (cs.client = none →
       LoadBalancer cs = (none, false) ∧ Instances cs = (none, false) ∧
       InstancesV2 cs = (none, false) ∧ Zones cs = (none, false) ∧
       Clusters cs = (none, false) ∧ Routes cs = (none, false)) := by
  constructor
  · rintro ⟨c, hc⟩
    simp [LoadBalancer, Instances, InstancesV2, Zones, Clusters, Routes, hc]
  · intro hc
    simp [LoadBalancer, Instances, InstancesV2, Zones, Clusters, Routes, hc]

/-- Instantiation of claim C7 at the two fixture adapters. -/
theorem c7_capabilities_witness :
    csC7some.client = some clientC7 ∧
    LoadBalancer csC7some = (some csC7some, true) ∧
    Clusters csC7some = (none, false) ∧
    csC7none.client = none ∧
    LoadBalancer csC7none = (none, false) ∧
    Zones csC7none = (none, false) :=
  have h1 := (c7_capabilities csC7some).1 ⟨clientC7, rfl⟩
  have h2 := (c7_capabilities csC7none).2 rfl
  ⟨rfl, h1.1, h1.2.2.2.2.1, rfl, h2.1, h2.2.2.2.1⟩

/-! ### Claim C8 — existence checks -/

/-- Fixture machine for C8. -/
def vmC8 : VirtualMachine :=
  ⟨"vm-8", "node1", "", "", "zone-a", "m1", [⟨"10.0.0.8"⟩]⟩

/-- Fixture adapter for C8 whose lookups report zero matches. -/
def csC8 : CSCloudLive :=
  ⟨⟨fun _ _ => .err 0 "no match", fun _ _ => .err 0 "no match"⟩, "", ""⟩

/-- Fixture adapter for C8 whose lookups succeed. -/
def csC8ok : CSCloudLive :=
  ⟨⟨fun _ _ => .ok vmC8, fun _ _ => .ok vmC8⟩, "", ""⟩

/-- Claim C8 as stated is false for existence-by-node-object: when the
remote lookup by name reports zero matches, `InstanceExists` propagates the
`cloudprovider.InstanceNotFound` error from `InstanceID` — a non-nil error
— instead of returning (false, no error). -/
theorem c8_existence_counterexample :
    (InstanceExists csC8 ⟨"node1"⟩).1 = .error .instanceNotFound ∧
    (Except.error CSError.instanceNotFound : Except CSError Bool) ≠
      .ok false :=
  ⟨rfl, fun h => Except.noConfusion h⟩

/-- Claim C8 (amended): existence-by-opaque-identifier returns (false, no
error) when the remote lookup reports zero matches, (false, a non-nil
generic error) when the remote call fails for any other reason, and true
otherwise; existence-by-node-object instead propagates the name-resolution
errors — the instance-not-found sentinel on zero matches, a wrapped generic
error on any other failure — and on success returns the result of the
identifier check for the resolved identifier. -/
theorem c8_existence (cs : CSCloudLive) (providerID : String)
    (node : corev1.Node) :
    (∀ msg,
       cs.client.getVirtualMachineByID providerID (some cs.projectID) =
         .err 0 msg →
       (InstanceExistsByProviderID cs providerID).1 = .ok false) ∧
    (∀ count msg,
       cs.client.getVirtualMachineByID providerID (some cs.projectID) =
         .err count msg → count ≠ 0 →
       (InstanceExistsByProviderID cs providerID).1 =
         .error (.errorMsg ("error retrieving instance: " ++ msg))) ∧
    (∀ vm,
       cs.client.getVirtualMachineByID providerID (some cs.projectID) =
         .ok vm →
       (InstanceExistsByProviderID cs providerID).1 = .ok true) ∧
    (∀ msg,
       cs.client.getVirtualMachineByName node.Name (some cs.projectID) =
         .err 0 msg →
       (InstanceExists cs node).1 = .error .instanceNotFound) ∧
    (∀ count msg,
       cs.client.getVirtualMachineByName node.Name (some cs.projectID) =
         .err count msg → count ≠ 0 →
       (InstanceExists cs node).1 =
         .error (.errorMsg ("error retrieving instance ID: " ++ msg))) ∧
    (∀ vm,
       cs.client.getVirtualMachineByName node.Name (some cs.projectID) =
         .ok vm →
       (InstanceExists cs node).1 =
         (InstanceExistsByProviderID cs vm.Id).1) := by
  refine ⟨?_, ?_, ?_, ?_, ?_, ?_⟩
  · intro msg h
    simp [InstanceExistsByProviderID, h]
  · intro count msg h hc
    simp [InstanceExistsByProviderID, h, hc]
  · intro vm h
    simp [InstanceExistsByProviderID, h]
  · intro msg h
    simp [InstanceExists, InstanceID, h]
  · intro count msg h hc
    simp [InstanceExists, InstanceID, h, hc]
  · intro vm h
    simp [InstanceExists, InstanceID, h]

/-- Instantiation of the amended claim C8 at the fixtures. -/
theorem c8_existence_witness :
    csC8.client.getVirtualMachineByID "vm-8" (some csC8.projectID) =
      .err 0 "no match" ∧
    (InstanceExistsByProviderID csC8 "vm-8").1 = .ok false ∧
    (InstanceExists csC8 ⟨"node1"⟩).1 = .error .instanceNotFound ∧
    (InstanceExists csC8ok ⟨"node1"⟩).1 = .ok true :=
  have h := c8_existence csC8 "vm-8" ⟨"node1"⟩
  have hok := c8_existence csC8ok "vm-8" ⟨"node1"⟩
  ⟨rfl, h.1 "no match" rfl, h.2.2.2.1 "no match" rfl,
   (hok.2.2.2.2.2 vmC8 rfl).trans (hok.2.2.1 vmC8 rfl)⟩

/-! ### Claim C9 — zone-cache monotonicity -/

/-- Fixture machine for C9 (remote zone zone-b, distinct from the cache). -/
def vmC9 : VirtualMachine :=
  ⟨"vm-9", "node9", "", "", "zone-b", "m1", [⟨"10.0.0.9"⟩]⟩

/-- Fixture adapter for C9 with a non-empty cached zone. -/
def csC9 : CSCloudLive :=
  ⟨⟨fun _ _ => .ok vmC9, fun _ _ => .ok vmC9⟩, "proj", "zone-a"⟩

/-- Fixture environment for C9. -/
def envC9 : Env := ⟨.ok "host9"⟩

/-- Claim C9: with a non-empty cached zone, resolve-current-zone reuses the
cache with no remote lookup and no operation (including metadata assembly)
modifies the adapter state; zone-by-opaque-identifier and zone-by-node-name
neither read the cache (their results are invariant under changing it) nor
write it (they are stateless), and each performs exactly one fresh remote
lookup on every call. -/
theorem c9_zone_monotonic (cs : CSCloudLive) (env : Env)
    (providerID nodeName : String) (node : corev1.Node)
    (hz : cs.zone ≠ "") :
    GetZone cs env = (.ok ⟨cs.zone, cs.zone⟩, cs, []) ∧
    (InstanceMetadata cs env node).2.1 = cs ∧
    (∀ z, GetZoneByProviderID { cs with zone := z } providerID =
       GetZoneByProviderID cs providerID) ∧
    (∀ z, GetZoneByNodeName { cs with zone := z } nodeName =
       GetZoneByNodeName cs nodeName) ∧
    (GetZoneByProviderID cs providerID).2 =
      [.byID providerID (some cs.projectID)] ∧
    (GetZoneByNodeName cs nodeName).2 =
      [.byName nodeName (some cs.projectID)] := by
  have hgz : GetZone cs env = (.ok ⟨cs.zone, cs.zone⟩, cs, []) := by
    simp [GetZone, hz]
  refine ⟨hgz, ?_, ?_, ?_, ?_, ?_⟩
  · rcases hT : InstanceType cs node.Name with ⟨rT, tT⟩
    cases rT with
    | error e => simp [InstanceMetadata, hT]
    | ok t =>
      rcases hA : NodeAddresses cs node.Name with ⟨rA, tA⟩
      cases rA with
      | error e => simp [InstanceMetadata, hT, hA]
      | ok a => simp [InstanceMetadata, hT, hA, hgz]
  · intro z
    cases h : cs.client.getVirtualMachineByID providerID (some cs.projectID) <;>
      simp [GetZoneByProviderID, h]
  · intro z
    cases h : cs.client.getVirtualMachineByName nodeName (some cs.projectID) <;>
      simp [GetZoneByNodeName, h]
  · cases h : cs.client.getVirtualMachineByID providerID (some cs.projectID) <;>
      simp [GetZoneByProviderID, h]
  · cases h : cs.client.getVirtualMachineByName nodeName (some cs.projectID) <;>
      simp [GetZoneByNodeName, h]

/-- Instantiation of claim C9 at the fixture adapter. -/
theorem c9_zone_monotonic_witness :
    csC9.zone ≠ "" ∧
    GetZone csC9 envC9 = (.ok ⟨"zone-a", "zone-a"⟩, csC9, []) ∧
    (InstanceMetadata csC9 envC9 ⟨"node9"⟩).2.1 = csC9 ∧
    (GetZoneByNodeName csC9 "node9").2 = [.byName "node9" (some "proj")] :=
  have h := c9_zone_monotonic csC9 envC9 "vm-9" "node9" ⟨"node9"⟩ (by decide)
  ⟨by decide, h.1, h.2.1, h.2.2.2.2.2⟩

/-! ### Claim C10 — project scoping of lookups -/

/-- Fixture machine for C10. -/
def vmC10 : VirtualMachine :=
  ⟨"vm-10", "node1", "", "", "zone-a", "m1", [⟨"10.0.0.10"⟩]⟩

/-- Fixture adapter for C10 with a configured project and empty zone
cache. -/
def csC10 : CSCloudLive :=
  ⟨⟨fun _ _ => .ok vmC10, fun _ _ => .ok vmC10⟩, "proj", ""⟩

/-- Fixture environment for C10: the local host name is host10. -/
def envC10 : Env := ⟨.ok "host10"⟩

/-- Claim C10: resolve-current-zone performs its lookup of the local host
name with no project option even when a project scope is configured,
whereas every other instance lookup (addresses, identifier, type,
existence, zone by opaque identifier, zone by node name) passes the
configured project scope to the remote lookup. -/
theorem c10_project_scope (cs : CSCloudLive) (env : Env) (h : String)
    (name providerID nodeName : String) (node : corev1.Node)
    (hz : cs.zone = "") (hh : env.hostname = .ok h) :
    (GetZone cs env).2.2 = [.byName h none] ∧
    (NodeAddresses cs name).2 = [.byName name (some cs.projectID)] ∧
    (NodeAddressesByProviderID cs providerID).2 =
      [.byID providerID (some cs.projectID)] ∧
    (InstanceID cs name).2 = [.byName name (some cs.projectID)] ∧
    (InstanceType cs name).2 = [.byName name (some cs.projectID)] ∧
    (InstanceTypeByProviderID cs providerID).2 =
      [.byID providerID (some cs.projectID)] ∧
    (InstanceExistsByProviderID cs providerID).2 =
      [.byID providerID (some cs.projectID)] ∧
    (GetZoneByProviderID cs providerID).2 =
      [.byID providerID (some cs.projectID)] ∧
    (GetZoneByNodeName cs nodeName).2 =
      [.byName nodeName (some cs.projectID)] ∧
    (∀ call ∈ (InstanceExists cs node).2, ∃ arg,
       call = .byName arg (some cs.projectID) ∨
       call = .byID arg (some cs.projectID)) := by
  refine ⟨?_, ?_, ?_, ?_, ?_, ?_, ?_, ?_, ?_, ?_⟩
  · cases hl : cs.client.getVirtualMachineByName h none <;>
      simp [GetZone, hz, hh, hl]
  · cases hl : cs.client.getVirtualMachineByName name (some cs.projectID) <;>
      simp [NodeAddresses, hl]
  · cases hl : cs.client.getVirtualMachineByID providerID (some cs.projectID) <;>
      simp [NodeAddressesByProviderID, hl]
  · cases hl : cs.client.getVirtualMachineByName name (some cs.projectID) <;>
      simp [InstanceID, hl]
  · cases hl : cs.client.getVirtualMachineByName name (some cs.projectID) <;>
      simp [InstanceType, hl]
  · cases hl : cs.client.getVirtualMachineByID providerID (some cs.projectID) <;>
      simp [InstanceTypeByProviderID, hl]
  · cases hl : cs.client.getVirtualMachineByID providerID (some cs.projectID) <;>
      simp [InstanceExistsByProviderID, hl]
  · cases hl : cs.client.getVirtualMachineByID providerID (some cs.projectID) <;>
      simp [GetZoneByProviderID, hl]
  · cases hl : cs.client.getVirtualMachineByName nodeName (some cs.projectID) <;>
      simp [GetZoneByNodeName, hl]
  · intro call hc
    cases hn : cs.client.getVirtualMachineByName node.Name (some cs.projectID) with
    | err cnt m =>
      by_cases h0 : cnt = 0 <;>
        (simp [InstanceExists, InstanceID, hn, h0] at hc
         exact ⟨node.Name, Or.inl hc⟩)
    | ok vm =>
      cases hid : cs.client.getVirtualMachineByID vm.Id (some cs.projectID) <;>
        (simp [InstanceExists, InstanceID, InstanceExistsByProviderID,
           hn, hid] at hc
         rcases hc with hc | hc
         · exact ⟨node.Name, Or.inl hc⟩
         · exact ⟨vm.Id, Or.inr hc⟩)

/-- Instantiation of claim C10 at the fixture adapter. -/
theorem c10_project_scope_witness :
    csC10.zone = "" ∧
    envC10.hostname = .ok "host10" ∧
    (GetZone csC10 envC10).2.2 = [.byName "host10" none] ∧
    (InstanceID csC10 "node1").2 = [.byName "node1" (some "proj")] ∧
    (GetZoneByNodeName csC10 "node1").2 = [.byName "node1" (some "proj")] :=
  have h := c10_project_scope csC10 envC10 "host10" "node1" "vm-10" "node1"
    ⟨"node1"⟩ rfl rfl
  ⟨rfl, rfl, h.1, h.2.2.2.1, h.2.2.2.2.2.2.2.2.1⟩
